import Mathlib

/-!
Shallow embedding of the two plugin source files of this repository:

* `src/silly.tsx`  — the PreMiD presence bridge (`getApp`, `getActivity`,
  `determineStatusType`, `formatTime`, the prune loop);
* `src/vrcText.ts` — the Discord→VRC text bridge (`onSend`,
  `sendWsMessage`, `sendTyping`).

JavaScript idioms are modelled explicitly: `x || d` and `x ?? d` become
the helpers `jsOrNat` / `jsOrStr` / `jsNullishStr`, truthiness of an
optional number becomes `jsTruthyInt` (absent or `0` is falsy), and an
out-of-range array index (`xs[0]` on `[]`) becomes the `JsStr.undef`
value.  A field that is absent from a JavaScript object (or was deleted
by the prune loop) is `none`.
-/

namespace VcMid

/-! ### Constants from `silly.tsx` (`ActivityType`, `ActivityFlag`) -/

def PLAYING : Nat := 0

def LISTENING : Nat := 2

def WATCHING : Nat := 3

def COMPETING : Nat := 5

def INSTANCE : Nat := 1

/-! ### JavaScript value helpers -/

/-- `v || d` for a number `v` that is always present: `0` is falsy. -/
def jsOrNat (v d : Nat) : Nat :=
  if v ≠ 0 then v else d

/-- `v ? v : d` for an optional number `v`: absent or `0` falls back. -/
def jsOrOptNat (v : Option Nat) (d : Nat) : Nat :=
  match v with
  | some t => if t ≠ 0 then t else d
  | none => d

/-- `v || d` for an optional string: absent or `""` falls back. -/
def jsOrStr (v : Option String) (d : String) : String :=
  match v with
  | some s => if s = "" then d else s
  | none => d

/-- `v ?? d` (nullish coalescing): only an absent value falls back. -/
def jsNullishStr (v : Option String) (d : String) : String :=
  v.getD d

/-- Truthiness of an optional number (`timestamps.start`, `.end`). -/
def jsTruthyInt (v : Option Int) : Bool :=
  match v with
  | some n => n != 0
  | none => false

/-- A JavaScript string-or-undefined value, as produced by indexing an
array (`buttons[0]` is `undefined` when the array is empty). -/
inductive JsStr where
  | undef : JsStr
  | str (s : String) : JsStr
deriving DecidableEq, Repr

/-- JavaScript array indexing `l[i]`. -/
def jsGet (l : List String) (i : Nat) : JsStr :=
  match l.get? i with
  | some s => JsStr.str s
  | none => JsStr.undef

/-! ### `determineStatusType` (silly.tsx lines 351–386)

The fetch of `metadata.json` is an external effect; its outcome is a
parameter: a non-success response (`!res.ok`), a body that fails to
parse (`res.json()` throwing, caught by the `try`/`catch`), or a parsed
document with a `category` string and a `tags` list. -/

structure PresenceMetadata where
  category : String
  tags : List String
deriving DecidableEq, Repr

inductive FetchOutcome where
  | notOk : FetchOutcome
  | parseFailure : FetchOutcome
  | success (metadata : PresenceMetadata) : FetchOutcome
deriving DecidableEq, Repr

def determineStatusType (outcome : FetchOutcome) : Option Nat :=
  match outcome with
  | .notOk => some PLAYING
  | .parseFailure => some PLAYING
  | .success metadata =>
    match metadata.category with
    | "socials" =>
      if metadata.tags.contains "video" then some WATCHING else none
    | "anime" =>
      if metadata.tags.any (fun tag => ["video", "media", "streaming"].contains tag)
      then some WATCHING else none
    | "music" => some LISTENING
    | "videos" => some WATCHING
    | _ => none

/-! ### `getApp` and the descriptor cache (silly.tsx lines 92–104) -/

structure Settings where
  showButtons : Bool
  manualShare : Bool
  hideViewChannel : Bool
  statusType : Nat
deriving DecidableEq, Repr

/-- The bare application record produced by `lookupRpcApp`
(`socket.application` before `statusType` is attached). -/
structure AppMeta where
  name : String
  icon : String
  flags : Nat
deriving DecidableEq, Repr

/-- The cached descriptor (`PublicApp` in the source), after `getApp`
has attached `statusType`. -/
structure PublicApp where
  name : String
  icon : String
  statusType : Nat
  flags : Nat
deriving DecidableEq, Repr

/-- The two external lookups `getApp` performs on a cache miss:
`lookupRpcApp` keyed by application id, and the `metadata.json` fetch
keyed by the application name. -/
structure ResolveEnv where
  lookupRpcApp : String → AppMeta
  fetchMetadata : String → FetchOutcome

abbrev AppCache := List (String × PublicApp)

/-- `getApp`: answer from the cache when possible, otherwise perform the
external lookup, attach `statusType` via
`activityType ? activityType : settings.store.statusType`, store the
descriptor and return it.  The `Bool` records whether the external
lookup ran. -/
def getApp (env : ResolveEnv) (s : Settings) (cache : AppCache)
    (applicationId : String) : PublicApp × AppCache × Bool :=
  match cache.lookup applicationId with
  | some app => (app, cache, false)
  | none =>
    let application := env.lookupRpcApp applicationId
    let activityType := determineStatusType (env.fetchMetadata application.name)
    let app : PublicApp :=
      { name := application.name
        icon := application.icon
        statusType := jsOrOptNat activityType s.statusType
        flags := application.flags }
    (app, (applicationId, app) :: cache, true)

/-! ### Activity records (silly.tsx lines 31–54) -/

structure Timestamps where
  start : Option Int
  «end» : Option Int
deriving DecidableEq, Repr

structure RawAssets where
  large_image : Option String
  large_text : Option String
  small_image : Option String
  small_text : Option String
deriving DecidableEq, Repr

structure RawMetadata where
  button_urls : Option (List String)
deriving DecidableEq, Repr

/-- The inbound `pmActivity` payload (untrusted, every field beyond the
application id may be absent). -/
structure RawActivity where
  application_id : String
  state : Option String
  details : Option String
  timestamps : Option Timestamps
  assets : Option RawAssets
  buttons : Option (List String)
  metadata : Option RawMetadata
deriving DecidableEq, Repr

structure OutMetadata where
  button_urls : Option (List JsStr)
deriving DecidableEq, Repr

structure SynthAssets where
  large_image : String
  large_text : Option String
  small_image : String
  small_text : String
deriving DecidableEq, Repr

/-- The outbound activity object.  `none` means the key is absent
(never assigned, or deleted by the prune loop).  `type` is kept as an
optional field so that the prune loop's `continue` on `"type"` — the
key survives even with value `0` — is expressible. -/
structure SynthActivity where
  application_id : Option String
  name : Option String
  details : Option String
  state : Option String
  type : Option Nat
  flags : Option Nat
  assets : SynthAssets
  timestamps : Option Timestamps
  buttons : Option (List JsStr)
  metadata : Option OutMetadata
deriving DecidableEq, Repr

def rawMetaToOut (m : RawMetadata) : OutMetadata :=
  { button_urls := m.button_urls.map (fun urls => urls.map JsStr.str) }

/-! ### `formatTime` (silly.tsx lines 345–349) -/

/-- `.toString().padStart(2, '0')`. -/
def padStart2 (s : String) : String :=
  if s.length < 2 then String.mk (List.replicate (2 - s.length) '0') ++ s else s

/-- `formatTime`: `MM:SS` of a second count.  `Math.floor(x / 60)` is
flooring division and `x % 60` is the truncating remainder. -/
def formatTime (seconds : Int) : String :=
  let minutes := Int.fdiv seconds 60
  let remainingSeconds := Int.tmod seconds 60
  padStart2 (toString minutes) ++ ":" ++ padStart2 (toString remainingSeconds)

/-! ### `getActivity` (silly.tsx lines 264–340)

The asset manager (`getAppAsset`) is an external lookup, passed as a
function from application id and key to the resolved image reference.
`Math.floor(Date.now() / 1000)` is passed as `now`.  The body is split
into its four blocks: the initial object literal plus the Playing
branch, the button block, the timestamp block, and the prune loop. -/

def version : String := "1.2.0"

/-- Lines 271–292: the initial `activity` literal, and the rebuild with
the branding caption when the type is Playing. -/
def baseActivity (appInfo : PublicApp) (asset : String → String → String)
    (pm : RawActivity) : SynthActivity :=
  let largeKey := jsNullishStr (pm.assets.bind (fun a => a.large_image)) "guh"
  let smallKey := jsNullishStr (pm.assets.bind (fun a => a.small_image)) "guhh"
  let smallText := jsOrStr (pm.assets.bind (fun a => a.small_text)) "hello there :3"
  let activity : SynthActivity :=
    { application_id := some pm.application_id
      name := some appInfo.name
      details := pm.details
      state := pm.state
      type := some (jsOrNat appInfo.statusType PLAYING)
      flags := some INSTANCE
      assets :=
        { large_image := asset pm.application_id largeKey
          large_text := none
          small_image := asset pm.application_id smallKey
          small_text := smallText }
      timestamps := none
      buttons := none
      metadata := none }
  if activity.type = some PLAYING then
    let brandedAssets : SynthAssets :=
      { large_image := asset pm.application_id largeKey
        large_text := some ("vcMiD v" ++ version)
        small_image := asset pm.application_id smallKey
        small_text := smallText }
    { activity with assets := brandedAssets }
  else activity

/-- Lines 294–304: the button block.  In the YouTube branch the inner
`if` tests `activity.metadata`, which has not been assigned at this
point, so the `button_urls` update is guarded on a field that is always
absent. -/
def applyButtons (s : Settings) (appInfo : PublicApp) (pm : RawActivity)
    (activity : SynthActivity) : SynthActivity :=
  match pm.buttons with
  | none => activity
  | some btns =>
    if s.showButtons then
      if appInfo.name = "YouTube" ∧ s.hideViewChannel then
        let a1 := { activity with buttons := some [jsGet btns 0] }
        match a1.metadata, pm.metadata with
        | some m, some pmMeta =>
          match pmMeta.button_urls with
          | some urls =>
            { a1 with metadata := some { m with button_urls := some [jsGet urls 0] } }
          | none => a1
        | _, _ => a1
      else
        { activity with
            buttons := some (btns.map JsStr.str)
            metadata := pm.metadata.map rawMetaToOut }
    else activity

/-- Lines 307–327: the timestamp block.  Every branch tests truthiness
of `start` / `end`, so a `0` timestamp behaves like an absent one. -/
def applyTimestamps (now : Int) (pm : RawActivity)
    (activity : SynthActivity) : SynthActivity :=
  match pm.timestamps with
  | none => activity
  | some ts =>
    if jsTruthyInt ts.start && jsTruthyInt ts.«end» then
      { activity with timestamps := some ts }
    else if jsTruthyInt ts.start then
      let start := ts.start.getD 0
      let a1 :=
        if activity.type = some WATCHING then
          let caption := formatTime (now - start) ++ " elapsed"
          { activity with assets := { activity.assets with large_text := some caption } }
        else activity
      { a1 with timestamps := some { start := ts.start, «end» := none } }
    else if jsTruthyInt ts.«end» then
      let e := ts.«end».getD 0
      let a1 :=
        if activity.type = some WATCHING then
          let caption := formatTime (e - now) ++ " left"
          { activity with assets := { activity.assets with large_text := some caption } }
        else activity
      let merged : Timestamps := { start := a1.timestamps.bind (fun t => t.start), «end» := ts.«end» }
      { a1 with timestamps := some merged }
    else activity

/-- `delete activity[k]` for a string-valued key: `!v` covers `""`,
`undefined`; a non-empty string has non-zero `length`. -/
def pruneStr (v : Option String) : Option String :=
  match v with
  | none => none
  | some s => if s = "" then none else some s

/-- `delete activity[k]` for a number-valued key: `!0` is true, a
number has no `length`. -/
def pruneNat (v : Option Nat) : Option Nat :=
  match v with
  | none => none
  | some n => if n = 0 then none else some n

/-- `delete activity[k]` for an array-valued key: an array is truthy
but `v.length === 0` deletes an empty one. -/
def pruneList {α : Type} (v : Option (List α)) : Option (List α) :=
  match v with
  | none => none
  | some l => if l.length = 0 then none else some l

/-- Lines 330–335: the prune loop.  `"type"` is skipped by `continue`;
`assets`, `timestamps` and `metadata` hold objects, which are truthy and
have no `length`, so they are never deleted once present. -/
def pruneActivity (a : SynthActivity) : SynthActivity :=
  { application_id := pruneStr a.application_id
    name := pruneStr a.name
    details := pruneStr a.details
    state := pruneStr a.state
    type := a.type
    flags := pruneNat a.flags
    assets := a.assets
    timestamps := a.timestamps
    buttons := pruneList a.buttons
    metadata := a.metadata }

/-- `getActivity` given the already-resolved descriptor: suppression
check (line 268), then the four blocks. -/
def getActivity (s : Settings) (appInfo : PublicApp)
    (asset : String → String → String) (now : Int)
    (pm : RawActivity) : Option SynthActivity :=
  if appInfo.name = "" ∨ appInfo.name = "PreMiD" then none
  else
    some (pruneActivity (applyTimestamps now pm
      (applyButtons s appInfo pm (baseActivity appInfo asset pm))))

/-- The full `setActivity` path: resolve the descriptor through the
cache, then synthesize. -/
def synthesize (env : ResolveEnv) (s : Settings) (cache : AppCache)
    (asset : String → String → String) (now : Int)
    (pm : RawActivity) : Option SynthActivity × AppCache :=
  let r := getApp env s cache pm.application_id
  (getActivity s r.fst asset now pm, r.snd.fst)

/-- A raw payload with no usable timestamp: the field is absent, or
both entries are falsy. -/
def lacksTimestamps (pm : RawActivity) : Bool :=
  match pm.timestamps with
  | none => true
  | some ts => !jsTruthyInt ts.start && !jsTruthyInt ts.«end»

end VcMid

namespace VrcText

/-! ### `onSend` and the bridge frames (vrcText.ts lines 85–177) -/

structure BridgeMsg where
  content : String
  sendNow : Bool
  popNoise : Bool
deriving DecidableEq, Repr

/-- A frame written to the bridge socket: either a bare text control
frame (`"typing:true"` / `"typing:false"`) or a JSON `BridgeMsg`. -/
inductive WsFrame where
  | text (s : String) : WsFrame
  | bridge (m : BridgeMsg) : WsFrame
deriving DecidableEq, Repr

/-- `sendTyping` (lines 175–177). -/
def sendTyping (isTyping : Bool) : WsFrame :=
  WsFrame.text (if isTyping then "typing:true" else "typing:false")

/-- `sendWsMessage` (lines 164–172): the JSON frame followed by the
`sendTyping(false)` it performs itself. -/
def sendWsMessage (msg : String) (pop : Bool) (now : Bool) : List WsFrame :=
  [WsFrame.bridge { content := msg, sendNow := now, popNoise := pop }, sendTyping false]

/-- `String.prototype.replace` with a string pattern: remove the first
occurrence of `pat` (leave the string unchanged when absent). -/
def replaceFirstList (pat : List Char) : List Char → List Char
  | [] => []
  | c :: cs =>
    if pat.isPrefixOf (c :: cs) then (c :: cs).drop pat.length
    else c :: replaceFirstList pat cs

def replaceFirst (s pat : String) : String :=
  String.mk (replaceFirstList pat.toList s.toList)

/-- `String.prototype.trim`: strip whitespace from both ends. -/
def jsTrim (s : String) : String :=
  String.mk (((s.toList.dropWhile Char.isWhitespace).reverse.dropWhile
    Char.isWhitespace).reverse)

/-- `String.prototype.startsWith` with a string argument. -/
def jsStartsWith (s pat : String) : Bool :=
  pat.toList.isPrefixOf s.toList

/-- The outcome of one `onSend` call: the frames written to the socket
in order, the final `msg.content`, and whether `this.stop()` ran. -/
structure OnSendResult where
  frames : List WsFrame
  content : String
  stopped : Bool
deriving DecidableEq, Repr

/-- `onSend` (lines 85–118).  `content` is the message with the first
`"=="` and then the first `"=/="` occurrence removed; routing tests the
trimmed original. -/
def onSend (override : Bool) (wsClosed : Bool) (msgContent : String) : OnSendResult :=
  if wsClosed then
    { frames := [], content := msgContent, stopped := true }
  else
    let content := replaceFirst (replaceFirst msgContent "==") "=/="
    let trim := jsTrim msgContent
    if override then
      if jsStartsWith trim "==" then
        { frames := [], content := content, stopped := false }
      else
        { frames := sendTyping false :: sendWsMessage content true true
          content := "", stopped := false }
    else if jsStartsWith trim "==" then
      { frames := sendTyping false :: sendWsMessage content true true
        content := "", stopped := false }
    else if jsStartsWith trim "=/=" then
      { frames := sendTyping false :: sendWsMessage content false true
        content := "", stopped := false }
    else
      { frames := [], content := msgContent, stopped := false }

end VrcText

/-! ## Helper lemmas -/

namespace VcMid

theorem applyButtons_preserves (s : Settings) (appInfo : PublicApp)
    (pm : RawActivity) (a : SynthActivity) :
    (applyButtons s appInfo pm a).assets = a.assets ∧
    (applyButtons s appInfo pm a).type = a.type ∧
    (applyButtons s appInfo pm a).timestamps = a.timestamps ∧
    (applyButtons s appInfo pm a).application_id = a.application_id ∧
    (applyButtons s appInfo pm a).name = a.name ∧
    (applyButtons s appInfo pm a).details = a.details ∧
    (applyButtons s appInfo pm a).state = a.state ∧
    (applyButtons s appInfo pm a).flags = a.flags := by
  unfold applyButtons
  rcases pm.buttons with _ | btns
  · exact ⟨rfl, rfl, rfl, rfl, rfl, rfl, rfl, rfl⟩
  · dsimp only
    repeat' split
    all_goals simp

theorem applyTimestamps_preserves (now : Int) (pm : RawActivity) (a : SynthActivity) :
    (applyTimestamps now pm a).buttons = a.buttons ∧
    (applyTimestamps now pm a).metadata = a.metadata ∧
    (applyTimestamps now pm a).type = a.type ∧
    (applyTimestamps now pm a).application_id = a.application_id ∧
    (applyTimestamps now pm a).name = a.name ∧
    (applyTimestamps now pm a).details = a.details ∧
    (applyTimestamps now pm a).state = a.state ∧
    (applyTimestamps now pm a).flags = a.flags := by
  unfold applyTimestamps
  rcases pm.timestamps with _ | ts
  · exact ⟨rfl, rfl, rfl, rfl, rfl, rfl, rfl, rfl⟩
  · dsimp only
    repeat' split
    all_goals simp

theorem baseActivity_fields (appInfo : PublicApp) (asset : String → String → String)
    (pm : RawActivity) :
    (baseActivity appInfo asset pm).type = some (jsOrNat appInfo.statusType PLAYING) ∧
    (baseActivity appInfo asset pm).timestamps = none ∧
    (baseActivity appInfo asset pm).buttons = none ∧
    (baseActivity appInfo asset pm).metadata = none := by
  unfold baseActivity
  dsimp only
  split <;> simp

theorem baseActivity_large_text_of_not_playing (appInfo : PublicApp)
    (asset : String → String → String) (pm : RawActivity)
    (h : jsOrNat appInfo.statusType PLAYING ≠ PLAYING) :
    (baseActivity appInfo asset pm).assets.large_text = none := by
  unfold baseActivity
  dsimp only
  split
  · next heq =>
    exfalso
    exact h (by simpa using heq)
  · rfl

theorem pruneActivity_fields (a : SynthActivity) :
    (pruneActivity a).type = a.type ∧
    (pruneActivity a).assets = a.assets ∧
    (pruneActivity a).timestamps = a.timestamps ∧
    (pruneActivity a).metadata = a.metadata ∧
    (pruneActivity a).buttons = pruneList a.buttons := by
  exact ⟨rfl, rfl, rfl, rfl, rfl⟩

end VcMid

/-! ## Claims -/

open VcMid VrcText

/-- Claim C4: category inference from a fetched application metadata
document — a non-success response yields Playing; a parsed document
yields Watching for `socials` with a `video` tag, Watching for `anime`
with a tag among {video, media, streaming}, Listening for `music`,
Watching for `videos`, and no category otherwise; a parse failure
yields Playing. -/
theorem determineStatusType_spec :
    determineStatusType FetchOutcome.notOk = some PLAYING ∧
    determineStatusType FetchOutcome.parseFailure = some PLAYING ∧
    (∀ m, m.category = "socials" → m.tags.contains "video" = true →
      determineStatusType (FetchOutcome.success m) = some WATCHING) ∧
    (∀ m, m.category = "anime" →
      m.tags.any (fun tag => ["video", "media", "streaming"].contains tag) = true →
      determineStatusType (FetchOutcome.success m) = some WATCHING) ∧
    (∀ m, m.category = "music" →
      determineStatusType (FetchOutcome.success m) = some LISTENING) ∧
    (∀ m, m.category = "videos" →
      determineStatusType (FetchOutcome.success m) = some WATCHING) ∧
    (∀ m, m.category = "socials" → m.tags.contains "video" = false →
      determineStatusType (FetchOutcome.success m) = none) ∧
    (∀ m, m.category = "anime" →
      m.tags.any (fun tag => ["video", "media", "streaming"].contains tag) = false →
      determineStatusType (FetchOutcome.success m) = none) ∧
    (∀ m, m.category ≠ "socials" → m.category ≠ "anime" → m.category ≠ "music" →
      m.category ≠ "videos" → determineStatusType (FetchOutcome.success m) = none) := by
  refine ⟨rfl, rfl, ?_, ?_, ?_, ?_, ?_, ?_, ?_⟩
  · intro m h1 h2
    simp only [determineStatusType]
    rw [h1, h2]
    rfl
  · intro m h1 h2
    simp only [determineStatusType]
    rw [h1, h2]
    rfl
  · intro m h1
    simp only [determineStatusType]
    rw [h1]
    rfl
  · intro m h1
    simp only [determineStatusType]
    rw [h1]
    rfl
  · intro m h1 h2
    simp only [determineStatusType]
    rw [h1, h2]
    rfl
  · intro m h1 h2
    simp only [determineStatusType]
    rw [h1, h2]
    rfl
  · intro m h1 h2 h3 h4
    simp only [determineStatusType]

/-- Claim C4 witness: a `music` document maps to Listening. -/
theorem determineStatusType_spec_witness :
    (PresenceMetadata.mk "music" []).category = "music" ∧
    determineStatusType (FetchOutcome.success (PresenceMetadata.mk "music" [])) =
      some LISTENING :=
  ⟨rfl, determineStatusType_spec.2.2.2.2.1 (PresenceMetadata.mk "music" []) rfl⟩

/-- Claim C8: resolving the same application identifier twice yields an
identical descriptor, and the second resolution is answered from the
cache without a second external lookup. -/
theorem getApp_idempotent (env : ResolveEnv) (s : Settings) (cache : AppCache)
    (applicationId : String) :
    (getApp env s (getApp env s cache applicationId).snd.fst applicationId).fst =
      (getApp env s cache applicationId).fst ∧
    (getApp env s (getApp env s cache applicationId).snd.fst applicationId).snd.snd =
      false := by
  unfold getApp
  rcases h : cache.lookup applicationId with _ | app
  · simp [h, List.lookup]
  · simp [h]

namespace VcMid

theorem pruneStr_ne_empty (v : Option String) : pruneStr v ≠ some "" := by
  unfold pruneStr
  rcases v with _ | s
  · simp
  · dsimp only
    split
    · simp
    · next h => simp [h]

theorem pruneNat_ne_zero (v : Option Nat) : pruneNat v ≠ some 0 := by
  unfold pruneNat
  rcases v with _ | n
  · simp
  · dsimp only
    split
    · simp
    · next h => simp [h]

theorem pruneList_ne_nil {α : Type} (v : Option (List α)) : pruneList v ≠ some [] := by
  unfold pruneList
  rcases v with _ | l
  · simp
  · dsimp only
    split
    · simp
    · next h =>
      intro hcontra
      rw [Option.some.injEq] at hcontra
      subst hcontra
      simp at h

theorem applyTimestamps_both (now : Int) (pm : RawActivity) (a : SynthActivity)
    (ts : Timestamps) (hts : pm.timestamps = some ts)
    (h1 : jsTruthyInt ts.start = true) (h2 : jsTruthyInt ts.«end» = true) :
    (applyTimestamps now pm a).timestamps = some ts := by
  unfold applyTimestamps
  rw [hts]
  simp [h1, h2]

theorem applyTimestamps_lacking (now : Int) (pm : RawActivity) (a : SynthActivity)
    (h : lacksTimestamps pm = true) :
    applyTimestamps now pm a = a := by
  unfold lacksTimestamps at h
  unfold applyTimestamps
  rcases hts : pm.timestamps with _ | ts
  · rfl
  · rw [hts] at h
    dsimp only at h
    rw [Bool.and_eq_true, Bool.not_eq_true', Bool.not_eq_true'] at h
    simp [h.1, h.2]

end VcMid

/-- Claim C2: in every non-suppressed synthesized activity, each key
except `type` whose value is falsy or zero-length (empty string, empty
array, zero, undefined) is absent from the final object, and the prune
loop leaves `type` in place (present even at value `0`). -/
theorem getActivity_pruned :
    (∀ (s : Settings) (appInfo : PublicApp) (asset : String → String → String)
      (now : Int) (pm : RawActivity),
      match getActivity s appInfo asset now pm with
      | none => True
      | some act =>
        act.application_id ≠ some "" ∧ act.name ≠ some "" ∧
        act.details ≠ some "" ∧ act.state ≠ some "" ∧
        act.flags ≠ some 0 ∧ act.buttons ≠ some [] ∧
        act.type.isSome = true) ∧
    (∀ a : SynthActivity, (pruneActivity a).type = a.type) := by
  constructor
  · intro s appInfo asset now pm
    rcases hact : getActivity s appInfo asset now pm with _ | act
    · trivial
    · unfold getActivity at hact
      split at hact
      · exact Option.noConfusion hact
      · rw [Option.some.injEq] at hact
        subst hact
        refine ⟨pruneStr_ne_empty _, pruneStr_ne_empty _, pruneStr_ne_empty _,
          pruneStr_ne_empty _, pruneNat_ne_zero _, pruneList_ne_nil _, ?_⟩
        rw [(pruneActivity_fields _).1,
          (applyTimestamps_preserves _ _ _).2.2.1,
          (applyButtons_preserves _ _ _ _).2.1,
          (baseActivity_fields _ _ _).1]
        rfl
  · intro a
    rfl

/-- Claim C6: with both `start` and `end` truthy the outbound
timestamps equal the inbound pair unchanged; with neither `start` nor
`end` usable the outbound object has no timestamps field. -/
theorem getActivity_timestamps_passthrough (s : Settings) (appInfo : PublicApp)
    (asset : String → String → String) (now : Int) (pm : RawActivity)
    (hname : ¬(appInfo.name = "" ∨ appInfo.name = "PreMiD")) :
    (∀ ts : Timestamps, pm.timestamps = some ts → jsTruthyInt ts.start = true →
      jsTruthyInt ts.«end» = true →
      (getActivity s appInfo asset now pm).map (fun a => a.timestamps) =
        some (some ts)) ∧
    (lacksTimestamps pm = true →
      (getActivity s appInfo asset now pm).map (fun a => a.timestamps) =
        some none) := by
  constructor
  · intro ts hts h1 h2
    unfold getActivity
    rw [if_neg hname]
    rw [Option.map_some']
    rw [(pruneActivity_fields _).2.2.1]
    rw [applyTimestamps_both now pm _ ts hts h1 h2]
  · intro h
    unfold getActivity
    rw [if_neg hname]
    rw [Option.map_some']
    rw [(pruneActivity_fields _).2.2.1]
    rw [applyTimestamps_lacking now pm _ h]
    rw [(applyButtons_preserves _ _ _ _).2.2.1]
    rw [(baseActivity_fields _ _ _).2.1]

/-- Claim C6 witness: a concrete activity with both timestamps set
passes them through, and one with no timestamps emits none. -/
theorem getActivity_timestamps_passthrough_witness :
    (¬(("App" : String) = "" ∨ ("App" : String) = "PreMiD")) ∧
    (getActivity (Settings.mk false false false 3) (PublicApp.mk "App" "ic" 3 0)
      (fun _ k => k) 1000
      (RawActivity.mk "1" none none (some (Timestamps.mk (some 5) (some 9)))
        none none none)).map (fun a => a.timestamps) =
      some (some (Timestamps.mk (some 5) (some 9))) ∧
    (getActivity (Settings.mk false false false 3) (PublicApp.mk "App" "ic" 3 0)
      (fun _ k => k) 1000
      (RawActivity.mk "1" none none none none none none)).map
        (fun a => a.timestamps) = some none := by
  refine ⟨by simp, ?_, ?_⟩
  · exact (getActivity_timestamps_passthrough (Settings.mk false false false 3)
      (PublicApp.mk "App" "ic" 3 0) (fun _ k => k) 1000
      (RawActivity.mk "1" none none (some (Timestamps.mk (some 5) (some 9)))
        none none none) (by simp)).1
      (Timestamps.mk (some 5) (some 9)) rfl rfl rfl
  · exact (getActivity_timestamps_passthrough (Settings.mk false false false 3)
      (PublicApp.mk "App" "ic" 3 0) (fun _ k => k) 1000
      (RawActivity.mk "1" none none none none none none) (by simp)).2 rfl

namespace VcMid

theorem applyTimestamps_start_watching (now : Int) (pm : RawActivity)
    (a : SynthActivity) (st : Int)
    (hts : pm.timestamps = some (Timestamps.mk (some st) none))
    (hst : st ≠ 0) (hty : a.type = some WATCHING) :
    (applyTimestamps now pm a).assets.large_text =
      some (formatTime (now - st) ++ " elapsed") := by
  unfold applyTimestamps
  rw [hts]
  simp [jsTruthyInt, hst, hty]

theorem applyTimestamps_end_watching (now : Int) (pm : RawActivity)
    (a : SynthActivity) (e : Int)
    (hts : pm.timestamps = some (Timestamps.mk none (some e)))
    (he : e ≠ 0) (hty : a.type = some WATCHING) :
    (applyTimestamps now pm a).assets.large_text =
      some (formatTime (e - now) ++ " left") := by
  unfold applyTimestamps
  rw [hts]
  simp [jsTruthyInt, he, hty]

theorem built_type_watching (s : Settings) (appInfo : PublicApp)
    (asset : String → String → String) (pm : RawActivity)
    (htype : appInfo.statusType = WATCHING) :
    (applyButtons s appInfo pm (baseActivity appInfo asset pm)).type =
      some WATCHING := by
  rw [(applyButtons_preserves _ _ _ _).2.1, (baseActivity_fields _ _ _).1, htype]
  rfl

end VcMid

/-- Claim C5: for a non-suppressed activity with effective category
Watching, a lone start timestamp of `now - 125` produces the
large-image caption `"02:05 elapsed"`, and a lone end timestamp of
`now + 65` produces `"01:05 left"` (zero-padded MM:SS). -/
theorem getActivity_watching_captions (s : Settings) (appInfo : PublicApp)
    (asset : String → String → String) (now : Int) (pm1 pm2 : RawActivity)
    (hname : ¬(appInfo.name = "" ∨ appInfo.name = "PreMiD"))
    (htype : appInfo.statusType = WATCHING) :
    (pm1.timestamps = some (Timestamps.mk (some (now - 125)) none) → 125 < now →
      (getActivity s appInfo asset now pm1).map (fun a => a.assets.large_text) =
        some (some "02:05 elapsed")) ∧
    (pm2.timestamps = some (Timestamps.mk none (some (now + 65))) → 0 ≤ now →
      (getActivity s appInfo asset now pm2).map (fun a => a.assets.large_text) =
        some (some "01:05 left")) := by
  constructor
  · intro hts hnow
    unfold getActivity
    rw [if_neg hname, Option.map_some']
    rw [(pruneActivity_fields _).2.1]
    rw [applyTimestamps_start_watching now pm1 _ (now - 125) hts (by omega)
      (built_type_watching s appInfo asset pm1 htype)]
    have h125 : now - (now - 125) = 125 := by omega
    rw [h125]
    rfl
  · intro hts hnow
    unfold getActivity
    rw [if_neg hname, Option.map_some']
    rw [(pruneActivity_fields _).2.1]
    rw [applyTimestamps_end_watching now pm2 _ (now + 65) hts (by omega)
      (built_type_watching s appInfo asset pm2 htype)]
    have h65 : now + 65 - now = 65 := by omega
    rw [h65]
    rfl

/-- Claim C5 witness: at `now = 1000`, start `875` gives
`"02:05 elapsed"` and end `1065` gives `"01:05 left"`. -/
theorem getActivity_watching_captions_witness :
    (¬(("App" : String) = "" ∨ ("App" : String) = "PreMiD")) ∧
    (PublicApp.mk "App" "ic" 3 0).statusType = WATCHING ∧
    (getActivity (Settings.mk false false false 3) (PublicApp.mk "App" "ic" 3 0)
      (fun _ k => k) 1000
      (RawActivity.mk "1" none none
        (some (Timestamps.mk (some (1000 - 125)) none)) none none none)).map
      (fun a => a.assets.large_text) = some (some "02:05 elapsed") ∧
    (getActivity (Settings.mk false false false 3) (PublicApp.mk "App" "ic" 3 0)
      (fun _ k => k) 1000
      (RawActivity.mk "1" none none
        (some (Timestamps.mk none (some (1000 + 65)))) none none none)).map
      (fun a => a.assets.large_text) = some (some "01:05 left") := by
  refine ⟨by simp, rfl, ?_, ?_⟩
  · exact (getActivity_watching_captions (Settings.mk false false false 3)
      (PublicApp.mk "App" "ic" 3 0) (fun _ k => k) 1000
      (RawActivity.mk "1" none none
        (some (Timestamps.mk (some (1000 - 125)) none)) none none none)
      (RawActivity.mk "1" none none
        (some (Timestamps.mk none (some (1000 + 65)))) none none none)
      (by simp) rfl).1 rfl (by decide)
  · exact (getActivity_watching_captions (Settings.mk false false false 3)
      (PublicApp.mk "App" "ic" 3 0) (fun _ k => k) 1000
      (RawActivity.mk "1" none none
        (some (Timestamps.mk (some (1000 - 125)) none)) none none none)
      (RawActivity.mk "1" none none
        (some (Timestamps.mk none (some (1000 + 65)))) none none none)
      (by simp) rfl).2 rfl (by decide)

/-- Claim C7: when the application identifier resolves to a descriptor
whose name is empty or is the sentinel `"PreMiD"`, synthesis is
suppressed (no activity object is produced) regardless of the other
input fields. -/
theorem synthesize_suppressed (env : ResolveEnv) (s : Settings) (cache : AppCache)
    (asset : String → String → String) (now : Int) (pm : RawActivity)
    (h : (getApp env s cache pm.application_id).fst.name = "" ∨
         (getApp env s cache pm.application_id).fst.name = "PreMiD") :
    (synthesize env s cache asset now pm).fst = none := by
  show getActivity s (getApp env s cache pm.application_id).fst asset now pm = none
  unfold getActivity
  rw [if_pos h]

/-- Claim C7 witness: a lookup that resolves to the sentinel name
`"PreMiD"` yields a suppressed synthesis. -/
theorem synthesize_suppressed_witness :
    ((getApp (ResolveEnv.mk (fun _ => AppMeta.mk "PreMiD" "ic" 0)
        (fun _ => FetchOutcome.notOk)) (Settings.mk false false false 3) []
        (RawActivity.mk "123" (some "st") none none none none none).application_id).fst.name = "" ∨
     (getApp (ResolveEnv.mk (fun _ => AppMeta.mk "PreMiD" "ic" 0)
        (fun _ => FetchOutcome.notOk)) (Settings.mk false false false 3) []
        (RawActivity.mk "123" (some "st") none none none none none).application_id).fst.name = "PreMiD") ∧
    (synthesize (ResolveEnv.mk (fun _ => AppMeta.mk "PreMiD" "ic" 0)
        (fun _ => FetchOutcome.notOk)) (Settings.mk false false false 3) []
        (fun _ k => k) 0
        (RawActivity.mk "123" (some "st") none none none none none)).fst = none :=
  ⟨Or.inr rfl,
    synthesize_suppressed (ResolveEnv.mk (fun _ => AppMeta.mk "PreMiD" "ic" 0)
      (fun _ => FetchOutcome.notOk)) (Settings.mk false false false 3) []
      (fun _ k => k) 0
      (RawActivity.mk "123" (some "st") none none none none none) (Or.inr rfl)⟩

/-- Claim C10: a timestamps field carrying `start = 0` and no `end` is
treated as absent — the outbound object has no timestamps field and no
elapsed caption is computed even when the category is Watching, because
every timestamp branch tests truthiness rather than presence. -/
theorem getActivity_zero_start_dropped (s : Settings) (appInfo : PublicApp)
    (asset : String → String → String) (now : Int) (pm : RawActivity)
    (hname : ¬(appInfo.name = "" ∨ appInfo.name = "PreMiD"))
    (htype : appInfo.statusType = WATCHING)
    (hts : pm.timestamps = some (Timestamps.mk (some 0) none)) :
    (getActivity s appInfo asset now pm).map
      (fun a => (a.timestamps, a.assets.large_text)) = some (none, none) := by
  have hlacks : lacksTimestamps pm = true := by
    simp [lacksTimestamps, hts, jsTruthyInt]
  unfold getActivity
  rw [if_neg hname]
  simp only [Option.map_some']
  rw [applyTimestamps_lacking now pm _ hlacks]
  rw [(pruneActivity_fields _).2.2.1, (pruneActivity_fields _).2.1]
  rw [(applyButtons_preserves _ _ _ _).2.2.1, (applyButtons_preserves _ _ _ _).1]
  rw [(baseActivity_fields _ _ _).2.1]
  rw [baseActivity_large_text_of_not_playing appInfo asset pm
    (by rw [htype]; decide)]

/-- Claim C10 witness: a concrete Watching activity with `start = 0`
emits neither a timestamps field nor a caption. -/
theorem getActivity_zero_start_dropped_witness :
    (¬(("App" : String) = "" ∨ ("App" : String) = "PreMiD")) ∧
    (PublicApp.mk "App" "ic" 3 0).statusType = WATCHING ∧
    (getActivity (Settings.mk false false false 3) (PublicApp.mk "App" "ic" 3 0)
      (fun _ k => k) 1000
      (RawActivity.mk "1" none none (some (Timestamps.mk (some 0) none))
        none none none)).map (fun a => (a.timestamps, a.assets.large_text)) =
      some (none, none) :=
  ⟨by simp, rfl,
    getActivity_zero_start_dropped (Settings.mk false false false 3)
      (PublicApp.mk "App" "ic" 3 0) (fun _ k => k) 1000
      (RawActivity.mk "1" none none (some (Timestamps.mk (some 0) none))
        none none none) (by simp) rfl rfl⟩

/-- Claim C1 counterexample: the metadata fetch fails, so the inferred
category is Playing (`some 0`); with the operator default configured as
Watching, the cached descriptor and the synthesized activity carry
Watching, not the inferred Playing — `activityType ? activityType : d`
discards a falsy inferred `0`. -/
theorem getApp_inferred_playing_counterexample :
    determineStatusType ((ResolveEnv.mk (fun _ => AppMeta.mk "Example" "ic" 0)
      (fun _ => FetchOutcome.notOk)).fetchMetadata "Example") = some PLAYING ∧
    (Settings.mk false false false WATCHING).statusType = WATCHING ∧
    (getApp (ResolveEnv.mk (fun _ => AppMeta.mk "Example" "ic" 0)
      (fun _ => FetchOutcome.notOk)) (Settings.mk false false false WATCHING)
      [] "123").fst.statusType = WATCHING ∧
    ((synthesize (ResolveEnv.mk (fun _ => AppMeta.mk "Example" "ic" 0)
      (fun _ => FetchOutcome.notOk)) (Settings.mk false false false WATCHING)
      [] (fun _ k => k) 0
      (RawActivity.mk "123" (some "st") none none none none none)).fst).map
      (fun a => a.type) = some (some WATCHING) ∧
    WATCHING ≠ PLAYING :=
  ⟨rfl, rfl, rfl, rfl, by decide⟩

/-- Claim C1 (amended): synthesis uses the descriptor's inferred
category only when that category is truthy (nonzero); an inferred
category of Playing (numeric value 0) is falsy and is replaced by the
operator-configured default, exactly like an absent inferred
category. -/
theorem getApp_statusType_selection (env : ResolveEnv) (s : Settings)
    (cache : AppCache) (applicationId : String)
    (hmiss : cache.lookup applicationId = none) :
    (∀ t, determineStatusType
        (env.fetchMetadata (env.lookupRpcApp applicationId).name) = some t →
      t ≠ 0 → (getApp env s cache applicationId).fst.statusType = t) ∧
    ((determineStatusType
        (env.fetchMetadata (env.lookupRpcApp applicationId).name) = none ∨
      determineStatusType
        (env.fetchMetadata (env.lookupRpcApp applicationId).name) = some 0) →
      (getApp env s cache applicationId).fst.statusType = s.statusType) := by
  unfold getApp
  rw [hmiss]
  constructor
  · intro t h ht
    show jsOrOptNat (determineStatusType
      (env.fetchMetadata (env.lookupRpcApp applicationId).name)) s.statusType = t
    rw [h]
    simp [jsOrOptNat, ht]
  · intro h
    show jsOrOptNat (determineStatusType
      (env.fetchMetadata (env.lookupRpcApp applicationId).name)) s.statusType =
      s.statusType
    rcases h with h | h <;> rw [h] <;> simp [jsOrOptNat]

/-- Claim C1 witness: a truthy inferred category (Listening, from a
`music` document) is used unchanged on a cache miss. -/
theorem getApp_statusType_selection_witness :
    (([] : AppCache).lookup "app1" = none) ∧
    determineStatusType ((ResolveEnv.mk (fun _ => AppMeta.mk "M" "ic" 0)
      (fun _ => FetchOutcome.success (PresenceMetadata.mk "music" []))).fetchMetadata
      (((ResolveEnv.mk (fun _ => AppMeta.mk "M" "ic" 0)
        (fun _ => FetchOutcome.success
          (PresenceMetadata.mk "music" []))).lookupRpcApp "app1").name)) =
      some LISTENING ∧
    (getApp (ResolveEnv.mk (fun _ => AppMeta.mk "M" "ic" 0)
      (fun _ => FetchOutcome.success (PresenceMetadata.mk "music" [])))
      (Settings.mk false false false 3) [] "app1").fst.statusType = LISTENING :=
  ⟨rfl, rfl,
    (getApp_statusType_selection (ResolveEnv.mk (fun _ => AppMeta.mk "M" "ic" 0)
      (fun _ => FetchOutcome.success (PresenceMetadata.mk "music" [])))
      (Settings.mk false false false 3) [] "app1" rfl).1 LISTENING rfl (by decide)⟩

namespace VcMid

theorem applyButtons_youtube (s : Settings) (appInfo : PublicApp)
    (pm : RawActivity) (a : SynthActivity) (b : String) (rest : List String)
    (hsb : s.showButtons = true) (hyt : appInfo.name = "YouTube")
    (hhv : s.hideViewChannel = true) (hbtns : pm.buttons = some (b :: rest))
    (hmeta : a.metadata = none) :
    (applyButtons s appInfo pm a).buttons = some [JsStr.str b] ∧
    (applyButtons s appInfo pm a).metadata = none := by
  unfold applyButtons
  rw [hbtns]
  simp [hsb, hyt, hhv, hmeta, jsGet]

end VcMid

/-- Claim C3 counterexample: with buttons enabled, name `"YouTube"`,
hide-view-channel enabled, inbound buttons `["Watch", "Subscribe"]` and
inbound `metadata.button_urls = ["u1", "u2"]`, the outbound buttons are
trimmed to the first label but the outbound object has *no* metadata
field — the claimed length-1 `button_urls` array is absent. -/
theorem getActivity_youtube_urls_counterexample :
    (RawActivity.mk "123" (some "st") none none none
      (some ["Watch", "Subscribe"])
      (some (RawMetadata.mk (some ["u1", "u2"])))).metadata =
      some (RawMetadata.mk (some ["u1", "u2"])) ∧
    (getActivity (Settings.mk true false true 3) (PublicApp.mk "YouTube" "ic" 3 0)
      (fun _ k => k) 0
      (RawActivity.mk "123" (some "st") none none none
        (some ["Watch", "Subscribe"])
        (some (RawMetadata.mk (some ["u1", "u2"]))))).map
      (fun a => (a.buttons, a.metadata)) =
      some (some [JsStr.str "Watch"], none) :=
  ⟨rfl, rfl⟩

/-- Claim C3 (amended): with buttons enabled, application name
`"YouTube"`, hide-view-channel enabled and a non-empty inbound button
list, the outbound buttons array has length 1 holding the first label;
the outbound object carries no metadata field at all (even when the
inbound payload has `metadata.button_urls`), because the `button_urls`
trim is guarded on an outbound metadata field that is never set in
this branch. -/
theorem getActivity_youtube_trim (s : Settings) (appInfo : PublicApp)
    (asset : String → String → String) (now : Int) (pm : RawActivity)
    (b : String) (rest : List String)
    (hsb : s.showButtons = true) (hyt : appInfo.name = "YouTube")
    (hhv : s.hideViewChannel = true) (hbtns : pm.buttons = some (b :: rest)) :
    (getActivity s appInfo asset now pm).map (fun a => (a.buttons, a.metadata)) =
      some (some [JsStr.str b], none) := by
  unfold getActivity
  rw [if_neg (by rw [hyt]; decide)]
  simp only [Option.map_some']
  rw [(pruneActivity_fields _).2.2.2.2, (pruneActivity_fields _).2.2.2.1]
  rw [(applyTimestamps_preserves _ _ _).1, (applyTimestamps_preserves _ _ _).2.1]
  have hb := applyButtons_youtube s appInfo pm (baseActivity appInfo asset pm)
    b rest hsb hyt hhv hbtns ((baseActivity_fields appInfo asset pm).2.2.2)
  rw [hb.1, hb.2]
  rfl

/-- Claim C3 witness: the amended trim behaviour at the concrete
YouTube input. -/
theorem getActivity_youtube_trim_witness :
    ((Settings.mk true false true 3).showButtons = true) ∧
    ((PublicApp.mk "YouTube" "ic" 3 0).name = "YouTube") ∧
    ((Settings.mk true false true 3).hideViewChannel = true) ∧
    ((RawActivity.mk "123" (some "st") none none none
      (some ["Watch", "Subscribe"])
      (some (RawMetadata.mk (some ["u1", "u2"])))).buttons =
      some ("Watch" :: ["Subscribe"])) ∧
    (getActivity (Settings.mk true false true 3) (PublicApp.mk "YouTube" "ic" 3 0)
      (fun _ k => k) 0
      (RawActivity.mk "123" (some "st") none none none
        (some ["Watch", "Subscribe"])
        (some (RawMetadata.mk (some ["u1", "u2"]))))).map
      (fun a => (a.buttons, a.metadata)) =
      some (some [JsStr.str "Watch"], none) :=
  ⟨rfl, rfl, rfl, rfl,
    getActivity_youtube_trim (Settings.mk true false true 3)
      (PublicApp.mk "YouTube" "ic" 3 0) (fun _ k => k) 0
      (RawActivity.mk "123" (some "st") none none none
        (some ["Watch", "Subscribe"])
        (some (RawMetadata.mk (some ["u1", "u2"]))))
      "Watch" ["Subscribe"] rfl rfl rfl rfl⟩

/-- Claim C9 counterexample: for the message `"==a=/=b"` with override
off and the socket open, the bridge frame content is `"ab"` — the
handler removes the first `"=/="` occurrence as well — whereas removing
only the first `"=="` occurrence would give `"a=/=b"`. -/
theorem onSend_strip_counterexample :
    (jsStartsWith (jsTrim "==a=/=b") "==" = true) ∧
    (onSend false false "==a=/=b").frames =
      [WsFrame.text "typing:false",
       WsFrame.bridge (BridgeMsg.mk "ab" true true),
       WsFrame.text "typing:false"] ∧
    replaceFirst "==a=/=b" "==" = "a=/=b" ∧
    (BridgeMsg.mk "ab" true true).content ≠ "a=/=b" ∧
    (onSend false false "==a=/=b").content = "" :=
  ⟨rfl, rfl, rfl, by decide, rfl⟩

/-- Claim C9 (amended): an outgoing message whose trimmed content
starts with `"=="`, with override mode off and the socket not closed,
is routed to the bridge with content equal to the message with the
first `"=="` occurrence removed *and then* the first `"=/="` occurrence
removed, and the message content is cleared so it is not forwarded to
the normal send pipeline. -/
theorem onSend_bridge_route (override wsClosed : Bool) (content : String)
    (hov : override = false) (hcl : wsClosed = false)
    (hpre : jsStartsWith (jsTrim content) "==" = true) :
    (onSend override wsClosed content).frames =
      [sendTyping false,
       WsFrame.bridge (BridgeMsg.mk
         (replaceFirst (replaceFirst content "==") "=/=") true true),
       sendTyping false] ∧
    (onSend override wsClosed content).content = "" := by
  subst hov
  subst hcl
  unfold onSend
  simp [hpre, sendWsMessage]

/-- Claim C9 witness: `"==hello"` routes to the bridge as `"hello"`
and the outgoing message content is cleared. -/
theorem onSend_bridge_route_witness :
    (jsStartsWith (jsTrim "==hello") "==" = true) ∧
    (onSend false false "==hello").frames =
      [sendTyping false, WsFrame.bridge (BridgeMsg.mk "hello" true true),
       sendTyping false] ∧
    (onSend false false "==hello").content = "" := by
  refine ⟨by decide, ?_, ?_⟩
  · exact (onSend_bridge_route false false "==hello" rfl rfl (by decide)).1.trans
      (by decide)
  · exact (onSend_bridge_route false false "==hello" rfl rfl (by decide)).2
